import Mathlib

/-!
Shallow embedding of the Mergington High School activities API (`src/app.py`).

The service keeps two entities in a relational store: `Activity` (name,
description, schedule, max_participants) and `User` (email, hashed_password),
joined many-to-many by an enrollment association.  Users are identified by
their unique email, so the association is modelled by storing the enrolled
users' emails in each activity's `participants` list, in insertion order,
exactly as the ORM relationship materialises it.

Handlers that raise `HTTPException` in Python are embedded as functions
returning `Except HTTPException α`; a raised exception aborts the request
before any commit, so the persistent store is unchanged on the error path
(`runSignup` / `runUnregister` make that explicit).

External library calls (passlib's bcrypt hashing, the jose JWT codec,
`datetime.utcnow`) are not part of this repository; they are modelled by
an abstract hash/verify function pair passed as parameters, a structural
token type, and an explicit `now : Nat` timestamp in seconds.
-/

/-- A row of the `users` table (`src/app.py` lines 64-68): unique email and
the bcrypt hash of the password.  The integer primary key is an ORM detail;
emails are unique, so they serve as the identity here. -/
structure User where
  email : String
  hashed_password : String
deriving Repr, DecidableEq

/-- A row of the `activities` table (`src/app.py` lines 55-62) together with
its many-to-many `participants` relationship, materialised as the list of
enrolled users' emails in insertion order. -/
structure Activity where
  name : String
  description : String
  schedule : String
  max_participants : Nat
  participants : List String
deriving Repr, DecidableEq

/-- The whole relational store: the `activities` table (with the enrollment
association folded into each row) and the `users` table, each in insertion
order. -/
structure Store where
  activities : List Activity
  users : List User
deriving Repr, DecidableEq

/-- A FastAPI `HTTPException` as raised by the handlers: a status code and a
detail message. -/
structure HTTPException where
  status_code : Nat
  detail : String
deriving Repr, DecidableEq

/-- The store before anything has been created. -/
def emptyStore : Store := { activities := [], users := [] }

/-- Lookup `db.query(Activity).filter(Activity.name == activity_name).first()`:
the first activity whose name matches. -/
def findActivity (s : Store) (activity_name : String) : Option Activity :=
  s.activities.find? (fun a => a.name == activity_name)

/-- Lookup `get_user` (`src/app.py` lines 110-111): the first user with the
given email. -/
def get_user (s : Store) (email : String) : Option User :=
  s.users.find? (fun u => u.email == email)

/-- Mutation of the row returned by `.first()`: replace the first activity
whose name matches by its image under `f`, leaving every other row alone. -/
def updateActivity (l : List Activity) (activity_name : String)
    (f : Activity → Activity) : List Activity :=
  match l with
  | [] => []
  | a :: rest =>
      if a.name == activity_name then f a :: rest
      else a :: updateActivity rest activity_name f

/-- Handler `signup_for_activity` (`src/app.py` lines 216-233): 404 when no
activity matches, 400 when the caller is already enrolled, 400 when the
activity is full, otherwise append the caller to the participants and
commit. -/
def signup_for_activity (s : Store) (activity_name : String)
    (current_user : User) : Except HTTPException (String × Store) :=
  match findActivity s activity_name with
  | none => .error { status_code := 404, detail := "Activity not found" }
  | some activity =>
      if current_user.email ∈ activity.participants then
        .error { status_code := 400, detail := "Student is already signed up" }
      else if activity.participants.length ≥ activity.max_participants then
        .error { status_code := 400, detail := "Activity is full" }
      else
        let upd := fun a : Activity =>
          { a with participants := a.participants ++ [current_user.email] }
        .ok ("Signed up " ++ current_user.email ++ " for " ++ activity_name,
          { s with activities := updateActivity s.activities activity_name upd })

/-- Handler `unregister_from_activity` (`src/app.py` lines 235-246): 404 when
no activity matches, 400 when the caller is not enrolled, otherwise remove
the caller (Python `list.remove`, i.e. first occurrence) and commit. -/
def unregister_from_activity (s : Store) (activity_name : String)
    (current_user : User) : Except HTTPException (String × Store) :=
  match findActivity s activity_name with
  | none => .error { status_code := 404, detail := "Activity not found" }
  | some activity =>
      if current_user.email ∈ activity.participants then
        let upd := fun a : Activity =>
          { a with participants := a.participants.erase current_user.email }
        .ok ("Unregistered " ++ current_user.email ++ " from " ++ activity_name,
          { s with activities := updateActivity s.activities activity_name upd })
      else
        .error { status_code := 400,
                 detail := "Student is not signed up for this activity" }

/-- Execution of one signup request against the persistent store: a raised
`HTTPException` aborts the request before `db.commit()`, so the store keeps
its previous committed state. -/
def runSignup (s : Store) (activity_name : String) (current_user : User) :
    Store × Except HTTPException String :=
  match signup_for_activity s activity_name current_user with
  | .ok (msg, s') => (s', .ok msg)
  | .error e => (s, .error e)

/-- Execution of one unregister request against the persistent store, with
the same abort-before-commit semantics as `runSignup`. -/
def runUnregister (s : Store) (activity_name : String) (current_user : User) :
    Store × Except HTTPException String :=
  match unregister_from_activity s activity_name current_user with
  | .ok (msg, s') => (s', .ok msg)
  | .error e => (s, .error e)

/-- The participant list the API would report for an activity name (empty
when the activity does not exist). -/
def participantsOf (s : Store) (activity_name : String) : List String :=
  match findActivity s activity_name with
  | some a => a.participants
  | none => []

/-- Handler `create_user` (`src/app.py` lines 172-182): 400 when the email is
already registered, otherwise store the new row `(email, hash(password))`
and return that row.  `hashFn` stands for passlib's `get_password_hash`. -/
def create_user (hashFn : String → String) (s : Store)
    (email password : String) : Except HTTPException (User × Store) :=
  match get_user s email with
  | some _ => .error { status_code := 400, detail := "Email already registered" }
  | none =>
      let db_user : User := { email := email, hashed_password := hashFn password }
      .ok (db_user, { s with users := s.users ++ [db_user] })

/-- JWT setting `SECRET_KEY` (`src/app.py` line 41). -/
def SECRET_KEY : String := "your-secret-key"

/-- JWT setting `ALGORITHM` (`src/app.py` line 42). -/
def ALGORITHM : String := "HS256"

/-- JWT setting `ACCESS_TOKEN_EXPIRE_MINUTES` (`src/app.py` line 43). -/
def ACCESS_TOKEN_EXPIRE_MINUTES : Nat := 30

/-- Claim set of a token: the `"sub"` entry of the data dict and the `"exp"`
entry added by `create_access_token` (absent when never set).  Timestamps are
seconds. -/
structure Payload where
  sub : Option String
  exp : Option Nat
deriving Repr, DecidableEq

/-- Result of `jwt.encode(payload, key, algorithm)`: the signed claims
together with the signing key and algorithm the signature commits to. -/
structure JWTToken where
  payload : Payload
  key : String
  alg : String
deriving Repr, DecidableEq

/-- A token string as presented by a client: either a well-formed JWT or
garbage that fails parsing. -/
inductive WireToken where
  | valid (t : JWTToken)
  | malformed
deriving Repr, DecidableEq

/-- Behaviour of `jwt.decode(token, key, algorithms)` from the jose library
as used by `get_current_user`: raise `JWTError` (here `.error ()`) when the
token is malformed, its signature does not verify under `key`, its algorithm
is not accepted, or its `exp` claim is not in the future; otherwise return
the claims. -/
def jwt_decode (w : WireToken) (key : String) (algorithms : List String)
    (now : Nat) : Except Unit Payload :=
  match w with
  | .malformed => .error ()
  | .valid t =>
      if t.key ≠ key then .error ()
      else if t.alg ∉ algorithms then .error ()
      else
        match t.payload.exp with
        | some e => if e ≤ now then .error () else .ok t.payload
        | none => .ok t.payload

/-- Helper `create_access_token` (`src/app.py` lines 100-108): copy the data,
set `exp` to `now + expires_delta` when a truthy (nonzero) delta is given and
to `now + 15 minutes` otherwise, and sign with `SECRET_KEY`.  `expires_delta`
is the timedelta in seconds, `none` when the argument is omitted (Python
default `None`). -/
def create_access_token (data : Payload) (expires_delta : Option Nat)
    (now : Nat) : JWTToken :=
  let expire :=
    match expires_delta with
    | some d => if 0 < d then now + d else now + 15 * 60
    | none => now + 15 * 60
  { payload := { data with exp := some expire },
    key := SECRET_KEY, alg := ALGORITHM }

/-- Helper `authenticate_user` (`src/app.py` lines 113-119): look the user up
by email and check the password against the stored hash; `none` models the
Python `False` returns.  `verifyFn` stands for passlib's
`pwd_context.verify(plain, hashed)`. -/
def authenticate_user (verifyFn : String → String → Bool) (s : Store)
    (email password : String) : Option User :=
  match get_user s email with
  | none => none
  | some user =>
      if verifyFn password user.hashed_password then some user else none

/-- Response model `Token` (`src/app.py` lines 78-80). -/
structure Token where
  access_token : JWTToken
  token_type : String
deriving Repr, DecidableEq

/-- Handler `login_for_access_token` (`src/app.py` lines 184-197): 401 when
authentication fails, otherwise a bearer token for the user's email expiring
`ACCESS_TOKEN_EXPIRE_MINUTES` after `now`. -/
def login_for_access_token (verifyFn : String → String → Bool) (s : Store)
    (username password : String) (now : Nat) : Except HTTPException Token :=
  match authenticate_user verifyFn s username password with
  | none => .error { status_code := 401, detail := "Incorrect email or password" }
  | some user =>
      let access_token := create_access_token
        { sub := some user.email, exp := none }
        (some (ACCESS_TOKEN_EXPIRE_MINUTES * 60)) now
      .ok { access_token := access_token, token_type := "bearer" }

/-- Dependency `get_current_user` (`src/app.py` lines 121-138): decode the
presented token with `SECRET_KEY`; 401 when decoding raises `JWTError`, when
the `sub` claim is missing, or when no account with that email exists;
otherwise return the resolved user. -/
def get_current_user (w : WireToken) (s : Store) (now : Nat) :
    Except HTTPException User :=
  let credentials_exception : HTTPException :=
    { status_code := 401, detail := "Could not validate credentials" }
  match jwt_decode w SECRET_KEY [ALGORITHM] now with
  | .error _ => .error credentials_exception
  | .ok payload =>
      match payload.sub with
      | none => .error credentials_exception
      | some email =>
          match get_user s email with
          | none => .error credentials_exception
          | some user => .ok user

/-- One entry of the `default_activities` list in `init_db`
(`src/app.py` lines 144-154). -/
structure ActivitySeed where
  name : String
  description : String
  schedule : String
  max_participants : Nat
  participants : List String
deriving Repr, DecidableEq

/-- The `default_activities` literal of `init_db` (`src/app.py`
lines 144-154). -/
def default_activities : List ActivitySeed := [
  { name := "Chess Club",
    description := "Learn strategies and compete in chess tournaments",
    schedule := "Fridays, 3:30 PM - 5:00 PM", max_participants := 12,
    participants := ["michael@mergington.edu", "daniel@mergington.edu"] },
  { name := "Programming Class",
    description := "Learn programming fundamentals and build software projects",
    schedule := "Tuesdays and Thursdays, 3:30 PM - 4:30 PM",
    max_participants := 20,
    participants := ["emma@mergington.edu", "sophia@mergington.edu"] },
  { name := "Gym Class",
    description := "Physical education and sports activities",
    schedule := "Mondays, Wednesdays, Fridays, 2:00 PM - 3:00 PM",
    max_participants := 30,
    participants := ["john@mergington.edu", "olivia@mergington.edu"] },
  { name := "Soccer Team",
    description := "Join the school soccer team and compete in matches",
    schedule := "Tuesdays and Thursdays, 4:00 PM - 5:30 PM",
    max_participants := 22,
    participants := ["liam@mergington.edu", "noah@mergington.edu"] },
  { name := "Basketball Team",
    description := "Practice and play basketball with the school team",
    schedule := "Wednesdays and Fridays, 3:30 PM - 5:00 PM",
    max_participants := 15,
    participants := ["ava@mergington.edu", "mia@mergington.edu"] },
  { name := "Art Club",
    description := "Explore your creativity through painting and drawing",
    schedule := "Thursdays, 3:30 PM - 5:00 PM", max_participants := 15,
    participants := ["amelia@mergington.edu", "harper@mergington.edu"] },
  { name := "Drama Club",
    description := "Act, direct, and produce plays and performances",
    schedule := "Mondays and Wednesdays, 4:00 PM - 5:30 PM",
    max_participants := 20,
    participants := ["ella@mergington.edu", "scarlett@mergington.edu"] },
  { name := "Math Club",
    description := "Solve challenging problems and participate in math competitions",
    schedule := "Tuesdays, 3:30 PM - 4:30 PM", max_participants := 10,
    participants := ["james@mergington.edu", "benjamin@mergington.edu"] },
  { name := "Debate Team",
    description := "Develop public speaking and argumentation skills",
    schedule := "Fridays, 4:00 PM - 5:30 PM", max_participants := 12,
    participants := ["charlotte@mergington.edu", "henry@mergington.edu"] }]

/-- Inner loop of `init_db` over one seed email (`src/app.py` lines 158-163):
reuse the existing user with that email, or create one with the dummy
password `"password"` hashed. -/
def addSeedUser (hashFn : String → String) (users : List User)
    (email : String) : List User :=
  match users.find? (fun u => u.email == email) with
  | some _ => users
  | none => users ++ [{ email := email, hashed_password := hashFn "password" }]

/-- Outer loop of `init_db` over one seed activity (`src/app.py`
lines 155-165): get-or-create each listed user, then add the activity with
those users as participants. -/
def seedOne (hashFn : String → String) (st : Store) (d : ActivitySeed) :
    Store :=
  { activities := st.activities ++
      [{ name := d.name, description := d.description, schedule := d.schedule,
         max_participants := d.max_participants,
         participants := d.participants }],
    users := d.participants.foldl (addSeedUser hashFn) st.users }

/-- Startup seeding `init_db` (`src/app.py` lines 141-167): when the
`activities` table is empty, create the default activities and their seed
users; otherwise do nothing. -/
def init_db (hashFn : String → String) (s : Store) : Store :=
  if s.activities.length == 0 then default_activities.foldl (seedOne hashFn) s
  else s

/-- A concrete stand-in for the bcrypt hash used by executable witnesses. -/
def demoHash : String → String := fun p => "bcrypt-" ++ p

/-- A concrete stand-in for passlib's verify routine, matching `demoHash`. -/
def demoVerify : String → String → Bool := fun p h => h == demoHash p

/-- The store right after startup seeding of an empty database. -/
def SeedStore : Store := init_db demoHash emptyStore

/-! ### Helper lemmas about the enrollment operations -/

theorem mem_updateActivity {l : List Activity} {n : String}
    {f : Activity → Activity} {a' : Activity}
    (h : a' ∈ updateActivity l n f) :
    a' ∈ l ∨ ∃ a, l.find? (fun x => x.name == n) = some a ∧ a' = f a := by
  induction l with
  | nil => simp [updateActivity] at h
  | cons b rest ih =>
      cases hb : (b.name == n) with
      | true =>
          rw [updateActivity, if_pos hb] at h
          rcases List.mem_cons.mp h with h' | h'
          · exact Or.inr ⟨b, List.find?_cons_of_pos _ hb, h'⟩
          · exact Or.inl (List.mem_cons_of_mem _ h')
      | false =>
          rw [updateActivity, if_neg (by simp [hb])] at h
          rcases List.mem_cons.mp h with h' | h'
          · subst h'; exact Or.inl (List.mem_cons_self _ _)
          · rcases ih h' with h'' | ⟨a, hfind, rfl⟩
            · exact Or.inl (List.mem_cons_of_mem _ h'')
            · refine Or.inr ⟨a, ?_, rfl⟩
              rw [List.find?_cons_of_neg _ (by simp [hb])]
              exact hfind

theorem find?_updateActivity (l : List Activity) (n : String)
    (f : Activity → Activity) (hf : ∀ a, (f a).name = a.name) :
    (updateActivity l n f).find? (fun x => x.name == n) =
      (l.find? (fun x => x.name == n)).map f := by
  induction l with
  | nil => rfl
  | cons b rest ih =>
      cases hb : (b.name == n) with
      | true =>
          have h1 : List.find? (fun x => x.name == n) (f b :: rest) =
              some (f b) := List.find?_cons_of_pos _ (by rw [hf]; exact hb)
          have h2 : List.find? (fun x => x.name == n) (b :: rest) = some b :=
            List.find?_cons_of_pos _ hb
          rw [updateActivity, if_pos hb, h1, h2]
          rfl
      | false =>
          have h1 : List.find? (fun x => x.name == n)
                (b :: updateActivity rest n f) =
              List.find? (fun x => x.name == n) (updateActivity rest n f) :=
            List.find?_cons_of_neg _ (by simp [hb])
          have h2 : List.find? (fun x => x.name == n) (b :: rest) =
              List.find? (fun x => x.name == n) rest :=
            List.find?_cons_of_neg _ (by simp [hb])
          rw [updateActivity, if_neg (by simp [hb]), h1, h2, ih]

theorem updateActivity_eq_set {l : List Activity} {n : String} {a : Activity}
    (f : Activity → Activity) (h : l.find? (fun x => x.name == n) = some a) :
    updateActivity l n f = l.set (l.findIdx (fun x => x.name == n)) (f a) := by
  induction l with
  | nil => cases h
  | cons b rest ih =>
      cases hb : (b.name == n) with
      | true =>
          have h2 : List.find? (fun x => x.name == n) (b :: rest) = some b :=
            List.find?_cons_of_pos _ hb
          rw [h2] at h
          injection h with h; subst h
          have hidx : (b :: rest).findIdx (fun x => x.name == n) = 0 := by
            rw [List.findIdx_cons, hb]; rfl
          rw [updateActivity, if_pos hb, hidx]
          rfl
      | false =>
          have h2 : List.find? (fun x => x.name == n) (b :: rest) =
              List.find? (fun x => x.name == n) rest :=
            List.find?_cons_of_neg _ (by simp [hb])
          rw [h2] at h
          have hidx : (b :: rest).findIdx (fun x => x.name == n) =
              rest.findIdx (fun x => x.name == n) + 1 := by
            rw [List.findIdx_cons, hb]; rfl
          rw [updateActivity, if_neg (by simp [hb]), hidx, ih h]
          rfl

theorem updateActivity_updateActivity (l : List Activity) (n : String)
    (f g : Activity → Activity) (hf : ∀ a, (f a).name = a.name) :
    updateActivity (updateActivity l n f) n g =
      updateActivity l n (fun a => g (f a)) := by
  induction l with
  | nil => rfl
  | cons b rest ih =>
      cases hb : (b.name == n) with
      | true =>
          rw [updateActivity, if_pos hb, updateActivity,
            if_pos (by rw [hf]; exact hb), updateActivity, if_pos hb]
      | false =>
          rw [updateActivity, if_neg (by simp [hb]), updateActivity,
            if_neg (by simp [hb]), updateActivity, if_neg (by simp [hb]), ih]

theorem updateActivity_eq_self {l : List Activity} {n : String} {a : Activity}
    {f : Activity → Activity} (h : l.find? (fun x => x.name == n) = some a)
    (hfa : f a = a) : updateActivity l n f = l := by
  induction l with
  | nil => rfl
  | cons b rest ih =>
      cases hb : (b.name == n) with
      | true =>
          have h2 : List.find? (fun x => x.name == n) (b :: rest) = some b :=
            List.find?_cons_of_pos _ hb
          rw [h2] at h
          injection h with h; subst h
          rw [updateActivity, if_pos hb, hfa]
      | false =>
          have h2 : List.find? (fun x => x.name == n) (b :: rest) =
              List.find? (fun x => x.name == n) rest :=
            List.find?_cons_of_neg _ (by simp [hb])
          rw [h2] at h
          rw [updateActivity, if_neg (by simp [hb]), ih h]

/-- Shorthand for the participant-appending update a successful signup
performs on the matched activity. -/
def addParticipant (email : String) : Activity → Activity :=
  fun x => { x with participants := x.participants ++ [email] }

/-- Shorthand for the participant-removing update a successful unregister
performs on the matched activity. -/
def removeParticipant (email : String) : Activity → Activity :=
  fun x => { x with participants := x.participants.erase email }

theorem signup_eq_notFound {s : Store} {n : String} (u : User)
    (hfa : findActivity s n = none) :
    signup_for_activity s n u =
      .error { status_code := 404, detail := "Activity not found" } := by
  unfold signup_for_activity
  rw [hfa]

theorem signup_eq_alreadySignedUp {s : Store} {n : String} {u : User}
    {a : Activity} (hfa : findActivity s n = some a)
    (hmem : u.email ∈ a.participants) :
    signup_for_activity s n u =
      .error { status_code := 400, detail := "Student is already signed up" } := by
  unfold signup_for_activity
  rw [hfa]
  simp only [if_pos hmem]

theorem signup_eq_full {s : Store} {n : String} {u : User} {a : Activity}
    (hfa : findActivity s n = some a) (hmem : u.email ∉ a.participants)
    (hfull : a.max_participants ≤ a.participants.length) :
    signup_for_activity s n u =
      .error { status_code := 400, detail := "Activity is full" } := by
  unfold signup_for_activity
  rw [hfa]
  simp only [if_neg hmem, if_pos hfull]

theorem signup_eq_ok {s : Store} {n : String} {u : User} {a : Activity}
    (hfa : findActivity s n = some a) (hmem : u.email ∉ a.participants)
    (hcap : a.participants.length < a.max_participants) :
    signup_for_activity s n u =
      .ok ("Signed up " ++ u.email ++ " for " ++ n,
        { s with activities :=
            updateActivity s.activities n (addParticipant u.email) }) := by
  unfold signup_for_activity
  rw [hfa]
  simp only [if_neg hmem, if_neg (Nat.not_le.mpr hcap)]
  rfl

theorem unregister_eq_notFound {s : Store} {n : String} (u : User)
    (hfa : findActivity s n = none) :
    unregister_from_activity s n u =
      .error { status_code := 404, detail := "Activity not found" } := by
  unfold unregister_from_activity
  rw [hfa]

theorem unregister_eq_notSignedUp {s : Store} {n : String} {u : User}
    {a : Activity} (hfa : findActivity s n = some a)
    (hmem : u.email ∉ a.participants) :
    unregister_from_activity s n u =
      .error { status_code := 400,
               detail := "Student is not signed up for this activity" } := by
  unfold unregister_from_activity
  rw [hfa]
  simp only [if_neg hmem]

theorem unregister_eq_ok {s : Store} {n : String} {u : User} {a : Activity}
    (hfa : findActivity s n = some a) (hmem : u.email ∈ a.participants) :
    unregister_from_activity s n u =
      .ok ("Unregistered " ++ u.email ++ " from " ++ n,
        { s with activities :=
            updateActivity s.activities n (removeParticipant u.email) }) := by
  unfold unregister_from_activity
  rw [hfa]
  simp only [if_pos hmem]
  rfl

theorem signup_ok_elim {s : Store} {n : String} {u : User} {msg : String}
    {s' : Store} (h : signup_for_activity s n u = .ok (msg, s')) :
    ∃ a, findActivity s n = some a ∧ u.email ∉ a.participants ∧
      a.participants.length < a.max_participants ∧
      msg = "Signed up " ++ u.email ++ " for " ++ n ∧
      s' = { s with activities :=
        updateActivity s.activities n (addParticipant u.email) } := by
  cases hfa : findActivity s n with
  | none => rw [signup_eq_notFound u hfa] at h; cases h
  | some a =>
      by_cases hmem : u.email ∈ a.participants
      · rw [signup_eq_alreadySignedUp hfa hmem] at h; cases h
      · by_cases hcap : a.participants.length < a.max_participants
        · rw [signup_eq_ok hfa hmem hcap] at h
          injection h with h
          injection h with h1 h2
          exact ⟨a, rfl, hmem, hcap, h1.symm, h2.symm⟩
        · rw [signup_eq_full hfa hmem (Nat.not_lt.mp hcap)] at h; cases h

theorem unregister_ok_elim {s : Store} {n : String} {u : User} {msg : String}
    {s' : Store} (h : unregister_from_activity s n u = .ok (msg, s')) :
    ∃ a, findActivity s n = some a ∧ u.email ∈ a.participants ∧
      msg = "Unregistered " ++ u.email ++ " from " ++ n ∧
      s' = { s with activities :=
        updateActivity s.activities n (removeParticipant u.email) } := by
  cases hfa : findActivity s n with
  | none => rw [unregister_eq_notFound u hfa] at h; cases h
  | some a =>
      by_cases hmem : u.email ∈ a.participants
      · rw [unregister_eq_ok hfa hmem] at h
        injection h with h
        injection h with h1 h2
        exact ⟨a, rfl, hmem, h1.symm, h2.symm⟩
      · rw [unregister_eq_notSignedUp hfa hmem] at h; cases h

/-! ### Claim theorems about the enrollment handlers -/

/-- C2: for every store, activity name and authenticated identity, `sign_up`
fails with 404 when no activity of that name exists, with 400 when the
identity is already enrolled, and with 400 when enrollment has reached
`max_participants`; otherwise it succeeds and records exactly one new
(activity, identity) enrollment association in the persisted store. -/
theorem signup_for_activity_spec (s : Store) (n : String) (u : User) :
    (findActivity s n = none →
      signup_for_activity s n u =
        .error { status_code := 404, detail := "Activity not found" }) ∧
    (∀ a, findActivity s n = some a → u.email ∈ a.participants →
      signup_for_activity s n u =
        .error { status_code := 400, detail := "Student is already signed up" }) ∧
    (∀ a, findActivity s n = some a → u.email ∉ a.participants →
      a.max_participants ≤ a.participants.length →
      signup_for_activity s n u =
        .error { status_code := 400, detail := "Activity is full" }) ∧
    (∀ a, findActivity s n = some a → u.email ∉ a.participants →
      a.participants.length < a.max_participants →
      (runSignup s n u).2 = .ok ("Signed up " ++ u.email ++ " for " ++ n) ∧
      participantsOf (runSignup s n u).1 n = participantsOf s n ++ [u.email] ∧
      (participantsOf (runSignup s n u).1 n).count u.email =
        (participantsOf s n).count u.email + 1) := by
  refine ⟨fun hfa => signup_eq_notFound u hfa,
    fun a hfa hmem => signup_eq_alreadySignedUp hfa hmem,
    fun a hfa hmem hfull => signup_eq_full hfa hmem hfull,
    fun a hfa hmem hcap => ?_⟩
  have hok := signup_eq_ok hfa hmem hcap
  have hrun : runSignup s n u =
      ({ s with activities :=
          updateActivity s.activities n (addParticipant u.email) },
        .ok ("Signed up " ++ u.email ++ " for " ++ n)) := by
    unfold runSignup
    rw [hok]
  have hfind : findActivity
      { s with activities :=
          updateActivity s.activities n (addParticipant u.email) } n =
      some (addParticipant u.email a) := by
    show (updateActivity s.activities n (addParticipant u.email)).find?
        (fun x => x.name == n) = some (addParticipant u.email a)
    rw [find?_updateActivity s.activities n (addParticipant u.email)
      (fun x => rfl)]
    rw [show s.activities.find? (fun x => x.name == n) = some a from hfa]
    rfl
  have hparts : participantsOf (runSignup s n u).1 n =
      participantsOf s n ++ [u.email] := by
    rw [hrun]
    show participantsOf _ n = _
    unfold participantsOf
    rw [hfind, hfa]
    rfl
  refine ⟨by rw [hrun], hparts, ?_⟩
  rw [hparts, List.count_append]
  simp

/-- C3: every `sign_up` or `unregister` call that fails one of its checks
(unknown activity, already enrolled, capacity reached, or not currently
enrolled) terminates with an error and leaves the persisted store exactly
unchanged. -/
theorem failed_requests_leave_store_unchanged (s : Store) (n : String)
    (u : User) :
    (∀ e, (runSignup s n u).2 = .error e → (runSignup s n u).1 = s) ∧
    (∀ e, (runUnregister s n u).2 = .error e → (runUnregister s n u).1 = s) ∧
    (findActivity s n = none →
      runSignup s n u =
        (s, .error { status_code := 404, detail := "Activity not found" }) ∧
      runUnregister s n u =
        (s, .error { status_code := 404, detail := "Activity not found" })) ∧
    (∀ a, findActivity s n = some a → u.email ∈ a.participants →
      runSignup s n u =
        (s, .error { status_code := 400,
                     detail := "Student is already signed up" })) ∧
    (∀ a, findActivity s n = some a → u.email ∉ a.participants →
      a.max_participants ≤ a.participants.length →
      runSignup s n u =
        (s, .error { status_code := 400, detail := "Activity is full" })) ∧
    (∀ a, findActivity s n = some a → u.email ∉ a.participants →
      runUnregister s n u =
        (s, .error { status_code := 400,
                     detail := "Student is not signed up for this activity" })) := by
  refine ⟨?_, ?_, ?_, ?_, ?_, ?_⟩
  · intro e he
    cases hs : signup_for_activity s n u with
    | ok v =>
        obtain ⟨msg, s'⟩ := v
        have hv : (runSignup s n u).2 = .ok msg := by
          unfold runSignup; rw [hs]
        rw [hv] at he; cases he
    | error e' =>
        unfold runSignup; rw [hs]
  · intro e he
    cases hs : unregister_from_activity s n u with
    | ok v =>
        obtain ⟨msg, s'⟩ := v
        have hv : (runUnregister s n u).2 = .ok msg := by
          unfold runUnregister; rw [hs]
        rw [hv] at he; cases he
    | error e' =>
        unfold runUnregister; rw [hs]
  · intro hfa
    constructor
    · unfold runSignup; rw [signup_eq_notFound u hfa]
    · unfold runUnregister; rw [unregister_eq_notFound u hfa]
  · intro a hfa hmem
    unfold runSignup; rw [signup_eq_alreadySignedUp hfa hmem]
  · intro a hfa hmem hfull
    unfold runSignup; rw [signup_eq_full hfa hmem hfull]
  · intro a hfa hmem
    unfold runUnregister; rw [unregister_eq_notSignedUp hfa hmem]

/-- Capacity invariant of the data model: every activity row has at most
`max_participants` enrolled users. -/
def CapacityOK (s : Store) : Prop :=
  ∀ a ∈ s.activities, a.participants.length ≤ a.max_participants

/-- One successful enrollment mutation of the store: a committed signup or a
committed unregister. -/
inductive Step : Store → Store → Prop where
  | signup (s : Store) (n : String) (u : User) (msg : String) (s' : Store)
      (h : signup_for_activity s n u = .ok (msg, s')) : Step s s'
  | unregister (s : Store) (n : String) (u : User) (msg : String) (s' : Store)
      (h : unregister_from_activity s n u = .ok (msg, s')) : Step s s'

/-- Stores reachable from the startup-seeded empty database by any finite
sequence of successful enrollment mutations. -/
inductive Reachable (hashFn : String → String) : Store → Prop where
  | seeded : Reachable hashFn (init_db hashFn emptyStore)
  | step {s s' : Store} (hr : Reachable hashFn s) (hs : Step s s') :
      Reachable hashFn s'

theorem capacityOK_seed (hashFn : String → String) :
    CapacityOK (init_db hashFn emptyStore) := by
  have hact : (init_db hashFn emptyStore).activities =
      default_activities.map (fun d =>
        { name := d.name, description := d.description, schedule := d.schedule,
          max_participants := d.max_participants,
          participants := d.participants }) := rfl
  have hseeds : ∀ d ∈ default_activities,
      d.participants.length ≤ d.max_participants := by decide
  intro a ha
  rw [hact] at ha
  obtain ⟨d, hd, rfl⟩ := List.mem_map.mp ha
  exact hseeds d hd

theorem capacityOK_signup {s : Store} {n : String} {u : User} {msg : String}
    {s' : Store} (hok : CapacityOK s)
    (h : signup_for_activity s n u = .ok (msg, s')) : CapacityOK s' := by
  obtain ⟨a, hfa, hmem, hcap, hmsg, rfl⟩ := signup_ok_elim h
  intro a' ha'
  rcases mem_updateActivity ha' with h' | ⟨b, hb, rfl⟩
  · exact hok a' h'
  · rw [show s.activities.find? (fun x => x.name == n) = some a from hfa] at hb
    injection hb with hb; subst hb
    show (a.participants ++ [u.email]).length ≤ a.max_participants
    rw [List.length_append]
    exact hcap

theorem capacityOK_unregister {s : Store} {n : String} {u : User}
    {msg : String} {s' : Store} (hok : CapacityOK s)
    (h : unregister_from_activity s n u = .ok (msg, s')) : CapacityOK s' := by
  obtain ⟨a, hfa, hmem, hmsg, rfl⟩ := unregister_ok_elim h
  intro a' ha'
  rcases mem_updateActivity ha' with h' | ⟨b, hb, rfl⟩
  · exact hok a' h'
  · rw [show s.activities.find? (fun x => x.name == n) = some a from hfa] at hb
    injection hb with hb; subst hb
    show (a.participants.erase u.email).length ≤ a.max_participants
    exact le_trans (List.Sublist.length_le (a.participants.erase_sublist u.email))
      (hok a (List.mem_of_find?_eq_some hfa))

/-- C1: on every store reachable from the seeded initial state by successful
sign_up and unregister operations, every activity's enrollment count is at
most its `max_participants`; moreover a sign_up against an activity at or
over capacity never commits a mutation. -/
theorem capacity_invariant (hashFn : String → String) (s : Store)
    (hr : Reachable hashFn s) :
    CapacityOK s ∧
    (∀ n u a, findActivity s n = some a →
      a.max_participants ≤ a.participants.length →
      (runSignup s n u).1 = s) := by
  constructor
  · induction hr with
    | seeded => exact capacityOK_seed hashFn
    | step hr hs ih =>
        cases hs with
        | signup x1 x2 x3 x4 x5 => exact capacityOK_signup ih x5
        | unregister x1 x2 x3 x4 x5 => exact capacityOK_unregister ih x5
  · intro n u a hfa hfull
    by_cases hmem : u.email ∈ a.participants
    · unfold runSignup
      rw [signup_eq_alreadySignedUp hfa hmem]
    · unfold runSignup
      rw [signup_eq_full hfa hmem hfull]

/-- C4: when signing up succeeds (activity exists, identity not enrolled,
below capacity), the signup followed by an unregister of the same
(activity, identity) pair succeeds and restores the store — in particular
every activity's participant set — exactly to its prior value. -/
theorem signup_unregister_roundtrip (s : Store) (n : String) (u : User)
    (a : Activity) (hfa : findActivity s n = some a)
    (hmem : u.email ∉ a.participants)
    (hcap : a.participants.length < a.max_participants) :
    (runSignup s n u).2 = .ok ("Signed up " ++ u.email ++ " for " ++ n) ∧
    runUnregister (runSignup s n u).1 n u =
      (s, .ok ("Unregistered " ++ u.email ++ " from " ++ n)) := by
  have hrun : runSignup s n u =
      ({ s with activities :=
          updateActivity s.activities n (addParticipant u.email) },
        .ok ("Signed up " ++ u.email ++ " for " ++ n)) := by
    unfold runSignup
    rw [signup_eq_ok hfa hmem hcap]
  have hfind1 : findActivity
      { s with activities :=
          updateActivity s.activities n (addParticipant u.email) } n =
      some (addParticipant u.email a) := by
    show (updateActivity s.activities n (addParticipant u.email)).find?
        (fun x => x.name == n) = _
    rw [find?_updateActivity s.activities n (addParticipant u.email)
      (fun x => rfl)]
    rw [show s.activities.find? (fun x => x.name == n) = some a from hfa]
    rfl
  have hmem1 : u.email ∈ (addParticipant u.email a).participants := by
    show u.email ∈ a.participants ++ [u.email]
    simp
  have hcomp : updateActivity
      (updateActivity s.activities n (addParticipant u.email)) n
      (removeParticipant u.email) =
      updateActivity s.activities n
        (fun x => removeParticipant u.email (addParticipant u.email x)) :=
    updateActivity_updateActivity s.activities n (addParticipant u.email)
      (removeParticipant u.email) (fun x => rfl)
  have herase : (a.participants ++ [u.email]).erase u.email = a.participants := by
    rw [List.erase_append_right _ hmem, List.erase_cons_head]
    simp
  have hid : removeParticipant u.email (addParticipant u.email a) = a := by
    show ({ a with
      participants := (a.participants ++ [u.email]).erase u.email } : Activity) = a
    rw [herase]
  refine ⟨by rw [hrun], ?_⟩
  rw [hrun]
  show runUnregister
    { s with activities :=
        updateActivity s.activities n (addParticipant u.email) } n u = _
  unfold runUnregister
  rw [unregister_eq_ok hfind1 hmem1]
  show (({ s with activities :=
      updateActivity (updateActivity s.activities n (addParticipant u.email)) n (removeParticipant u.email) } : Store),
    Except.ok ("Unregistered " ++ u.email ++ " from " ++ n)) = _
  rw [hcomp,
    updateActivity_eq_self
      (show s.activities.find? (fun x => x.name == n) = some a from hfa) hid]

/-- C9: a successful sign_up (respectively unregister) rewrites exactly the
matched activity row — appending (respectively erasing) exactly the caller's
email in its participant list, all other fields kept — leaves every other
activity row at every other index untouched, and leaves the users table
untouched. -/
theorem mutation_frame (s : Store) (n : String) (u : User) (a : Activity)
    (hfa : findActivity s n = some a) :
    (u.email ∉ a.participants → a.participants.length < a.max_participants →
      signup_for_activity s n u =
        .ok ("Signed up " ++ u.email ++ " for " ++ n,
          { activities := s.activities.set
              (s.activities.findIdx (fun x => x.name == n))
              { a with participants := a.participants ++ [u.email] },
            users := s.users })) ∧
    (u.email ∈ a.participants →
      unregister_from_activity s n u =
        .ok ("Unregistered " ++ u.email ++ " from " ++ n,
          { activities := s.activities.set
              (s.activities.findIdx (fun x => x.name == n))
              { a with participants := a.participants.erase u.email },
            users := s.users })) ∧
    (∀ b : Activity, ∀ j, j ≠ s.activities.findIdx (fun x => x.name == n) →
      (s.activities.set (s.activities.findIdx (fun x => x.name == n)) b)[j]? =
        s.activities[j]?) := by
  have hfa' : s.activities.find? (fun x => x.name == n) = some a := hfa
  refine ⟨?_, ?_, ?_⟩
  · intro hmem hcap
    rw [signup_eq_ok hfa hmem hcap,
      updateActivity_eq_set (addParticipant u.email) hfa']
    rfl
  · intro hmem
    rw [unregister_eq_ok hfa hmem,
      updateActivity_eq_set (removeParticipant u.email) hfa']
    rfl
  · intro b j hj
    exact List.getElem?_set_ne (Ne.symm hj)

/-! ### Claim theorems about the credential and token layer -/

/-- C6: `issue_token` (the `/token` handler) fails with 401 when no account
with that email exists or when the password does not verify against the
stored hash; on success it returns the type tag `"bearer"` together with a
token signed with the server secret whose subject is the account's email and
whose expiry is exactly 30 minutes after issuance. -/
theorem login_for_access_token_spec (verifyFn : String → String → Bool)
    (s : Store) (username password : String) (now : Nat) :
    (get_user s username = none →
      login_for_access_token verifyFn s username password now =
        .error { status_code := 401, detail := "Incorrect email or password" }) ∧
    (∀ u, get_user s username = some u →
      verifyFn password u.hashed_password = false →
      login_for_access_token verifyFn s username password now =
        .error { status_code := 401, detail := "Incorrect email or password" }) ∧
    (∀ u, get_user s username = some u →
      verifyFn password u.hashed_password = true →
      login_for_access_token verifyFn s username password now =
        .ok { access_token :=
                { payload := { sub := some u.email, exp := some (now + 30 * 60) },
                  key := SECRET_KEY, alg := ALGORITHM },
              token_type := "bearer" }) := by
  refine ⟨?_, ?_, ?_⟩
  · intro hu
    unfold login_for_access_token authenticate_user
    rw [hu]
  · intro u hu hv
    simp only [login_for_access_token, authenticate_user, hu, hv,
      Bool.false_eq_true, if_false]
  · intro u hu hv
    simp only [login_for_access_token, authenticate_user, hu, hv, if_true,
      create_access_token, ACCESS_TOKEN_EXPIRE_MINUTES]
    norm_num

/-- C7: `verify_token` (`get_current_user`, the precondition of every
enrollment mutation) rejects with 401 a token that is malformed, signed with
a different key, or expired — these all make `jwt.decode` raise — and also
rejects with 401 a decoded token whose subject claim is missing or does not
resolve to an existing account; otherwise it returns the account resolved
from the subject email. -/
theorem get_current_user_spec (w : WireToken) (s : Store) (now : Nat) :
    (w = .malformed → jwt_decode w SECRET_KEY [ALGORITHM] now = .error ()) ∧
    (∀ t, w = .valid t → t.key ≠ SECRET_KEY →
      jwt_decode w SECRET_KEY [ALGORITHM] now = .error ()) ∧
    (∀ t e, w = .valid t → t.payload.exp = some e → e ≤ now →
      jwt_decode w SECRET_KEY [ALGORITHM] now = .error ()) ∧
    (jwt_decode w SECRET_KEY [ALGORITHM] now = .error () →
      get_current_user w s now =
        .error { status_code := 401, detail := "Could not validate credentials" }) ∧
    (∀ p, jwt_decode w SECRET_KEY [ALGORITHM] now = .ok p → p.sub = none →
      get_current_user w s now =
        .error { status_code := 401, detail := "Could not validate credentials" }) ∧
    (∀ p email, jwt_decode w SECRET_KEY [ALGORITHM] now = .ok p →
      p.sub = some email → get_user s email = none →
      get_current_user w s now =
        .error { status_code := 401, detail := "Could not validate credentials" }) ∧
    (∀ p email user, jwt_decode w SECRET_KEY [ALGORITHM] now = .ok p →
      p.sub = some email → get_user s email = some user →
      get_current_user w s now = .ok user) := by
  refine ⟨?_, ?_, ?_, ?_, ?_, ?_, ?_⟩
  · intro hw; subst hw; rfl
  · intro t hw hk; subst hw
    simp only [jwt_decode]
    rw [if_pos hk]
  · intro t e hw he hle; subst hw
    simp only [jwt_decode, he]
    by_cases hk : t.key ≠ SECRET_KEY
    · rw [if_pos hk]
    · rw [if_neg hk]
      by_cases ha : t.alg ∉ [ALGORITHM]
      · rw [if_pos ha]
      · rw [if_neg ha, if_pos hle]
  · intro hd
    simp only [get_current_user, hd]
  · intro p hd hsub
    simp only [get_current_user, hd, hsub]
  · intro p email hd hsub hu
    simp only [get_current_user, hd, hsub, hu]
  · intro p email user hd hsub hu
    simp only [get_current_user, hd, hsub, hu]

/-- C10: every token minted by `create_access_token` carries an `exp` claim;
when the `expires_delta` argument is omitted the embedded expiry is
15 minutes from issuance, and the 30-minute expiry is obtained exactly when
the caller passes the delta the login handler passes. -/
theorem create_access_token_expiry (data : Payload) (now : Nat)
    (expires_delta : Option Nat) :
    ((create_access_token data expires_delta now).payload.exp).isSome = true ∧
    (create_access_token data none now).payload.exp = some (now + 15 * 60) ∧
    (create_access_token data (some (ACCESS_TOKEN_EXPIRE_MINUTES * 60))
        now).payload.exp = some (now + 30 * 60) := by
  refine ⟨?_, rfl, ?_⟩
  · unfold create_access_token
    cases expires_delta with
    | none => rfl
    | some d =>
        by_cases hd : 0 < d
        · simp only [if_pos hd]
          rfl
        · simp only [if_neg hd]
          rfl
  · unfold create_access_token ACCESS_TOKEN_EXPIRE_MINUTES
    norm_num

/-! ### Claim theorems about startup seeding -/

/-- The activity row `Activity(**act_data)` built from one seed entry. -/
def seedActivity (d : ActivitySeed) : Activity :=
  { name := d.name, description := d.description, schedule := d.schedule,
    max_participants := d.max_participants, participants := d.participants }

theorem seedOne_foldl_activities_length (hashFn : String → String)
    (ds : List ActivitySeed) (st : Store) :
    (ds.foldl (seedOne hashFn) st).activities.length =
      st.activities.length + ds.length := by
  induction ds generalizing st with
  | nil => simp
  | cons d rest ih =>
      rw [List.foldl_cons, ih]
      show (st.activities ++ [seedActivity d]).length + rest.length =
        st.activities.length + (rest.length + 1)
      simp
      omega

theorem init_db_noop (hashFn : String → String) {s : Store}
    (h : s.activities ≠ []) : init_db hashFn s = s := by
  unfold init_db
  rw [if_neg]
  simp only [beq_iff_eq, List.length_eq_zero]
  exact h

theorem init_db_activities_ne_nil (hashFn : String → String) (s : Store) :
    (init_db hashFn s).activities ≠ [] := by
  unfold init_db
  by_cases h0 : s.activities.length = 0
  · rw [if_pos (by simp [h0])]
    intro hnil
    have hlen := seedOne_foldl_activities_length hashFn default_activities s
    rw [hnil, h0, show default_activities.length = 9 from rfl] at hlen
    simp at hlen
  · rw [if_neg (by simp [h0])]
    intro hnil
    rw [hnil] at h0
    simp at h0

set_option maxHeartbeats 1600000 in
/-- C8: startup seeding is idempotent — a store that already holds an
activity is returned unchanged, seeding the empty store creates exactly the
default activities and their seed users (hashed dummy password), and running
`init_db` twice from any state equals running it once. -/
theorem init_db_spec (hashFn : String → String) (s : Store) :
    (s.activities ≠ [] → init_db hashFn s = s) ∧
    (init_db hashFn emptyStore).activities =
      default_activities.map seedActivity ∧
    (init_db hashFn emptyStore).users =
      ((default_activities.map (fun d => d.participants)).flatten).map
        (fun e => { email := e, hashed_password := hashFn "password" }) ∧
    init_db hashFn (init_db hashFn s) = init_db hashFn s := by
  refine ⟨fun h => init_db_noop hashFn h, rfl, ?_,
    init_db_noop hashFn (init_db_activities_ne_nil hashFn s)⟩
  simp [init_db, emptyStore, default_activities, seedOne, addSeedUser,
    List.find?]

/-! ### Evidence for the create_user response-model divergence -/

/-- Field names of the pydantic model `UserCreate` (`src/app.py`
lines 74-76), which the `create_user` route declares as its
`response_model` (line 172). -/
def UserCreate_fields : List String := ["email", "password"]

/-- Column attribute names of a `User` ORM row (`src/app.py` lines 64-68),
the object the `create_user` handler actually returns. -/
def User_columns : List String := ["id", "email", "hashed_password"]

/-- C5 evidence: registration itself behaves as claimed — a duplicate email
is rejected with 400 and the store kept, and a fresh registration stores the
salted hash, never the plaintext — but the declared response is not an
email-only public view: the route's `response_model` `UserCreate` carries a
`password` field, and the handler returns the stored row carrying
`hashed_password` (which has no `password` attribute at all, so the declared
response cannot even be produced from it). -/
theorem create_user_response_model_divergence :
    create_user demoHash emptyStore "new@x.edu" "secret" =
      .ok ({ email := "new@x.edu", hashed_password := "bcrypt-secret" },
        { activities := [],
          users := [{ email := "new@x.edu",
                      hashed_password := "bcrypt-secret" }] }) ∧
    create_user demoHash
        { activities := [],
          users := [{ email := "new@x.edu",
                      hashed_password := "bcrypt-secret" }] }
        "new@x.edu" "other" =
      .error { status_code := 400, detail := "Email already registered" } ∧
    "password" ∈ UserCreate_fields ∧
    UserCreate_fields ≠ ["email"] ∧
    "password" ∉ User_columns ∧
    "hashed_password" ∈ User_columns := by
  refine ⟨rfl, rfl, by decide, by decide, by decide, by decide⟩

/-! ### Concrete witnesses -/

/-- The seeded Chess Club row, for concrete instantiations. -/
def ChessSeed : Activity :=
  { name := "Chess Club",
    description := "Learn strategies and compete in chess tournaments",
    schedule := "Fridays, 3:30 PM - 5:00 PM", max_participants := 12,
    participants := ["michael@mergington.edu", "daniel@mergington.edu"] }

/-- A freshly registered account, for concrete instantiations. -/
def NewUser : User := { email := "new@x.edu", hashed_password := demoHash "pw" }

/-- The first seeded account, for concrete instantiations. -/
def MichaelUser : User :=
  { email := "michael@mergington.edu", hashed_password := demoHash "password" }

/-- C1 witness: the capacity invariant evaluated on the seeded store. -/
theorem capacity_invariant_witness : CapacityOK SeedStore :=
  (capacity_invariant demoHash SeedStore Reachable.seeded).1

/-- C2 witness: signing up for an activity that does not exist in the seeded
store is rejected with 404. -/
theorem signup_for_activity_spec_witness :
    signup_for_activity SeedStore "Knitting Club" NewUser =
      .error { status_code := 404, detail := "Activity not found" } :=
  (signup_for_activity_spec SeedStore "Knitting Club" NewUser).1 (by decide)

/-- C3 witness: unregistering a never-enrolled student from the seeded Chess
Club fails with 400 and returns the seeded store unchanged. -/
theorem failed_requests_witness :
    runUnregister SeedStore "Chess Club" NewUser =
      (SeedStore,
        .error { status_code := 400,
                 detail := "Student is not signed up for this activity" }) :=
  (failed_requests_leave_store_unchanged SeedStore "Chess Club"
    NewUser).2.2.2.2.2 ChessSeed (by decide) (by decide)

/-- C4 witness: signing `new@x.edu` up for the seeded Chess Club and then
unregistering them restores the seeded store exactly. -/
theorem signup_unregister_roundtrip_witness :
    (runSignup SeedStore "Chess Club" NewUser).2 =
      .ok ("Signed up " ++ NewUser.email ++ " for " ++ "Chess Club") ∧
    runUnregister (runSignup SeedStore "Chess Club" NewUser).1
        "Chess Club" NewUser =
      (SeedStore,
        .ok ("Unregistered " ++ NewUser.email ++ " from " ++ "Chess Club")) :=
  signup_unregister_roundtrip SeedStore "Chess Club" NewUser ChessSeed
    (by decide) (by decide) (by decide)

/-- C6 witness: the seeded account logs in with the dummy password at time
1000 and receives a bearer token bound to its email expiring at time 2800. -/
theorem login_for_access_token_spec_witness :
    login_for_access_token demoVerify SeedStore "michael@mergington.edu"
        "password" 1000 =
      .ok { access_token :=
              { payload := { sub := some MichaelUser.email,
                             exp := some (1000 + 30 * 60) },
                key := SECRET_KEY, alg := ALGORITHM },
            token_type := "bearer" } :=
  (login_for_access_token_spec demoVerify SeedStore "michael@mergington.edu"
    "password" 1000).2.2 MichaelUser (by decide) (by decide)

/-- C7 witness: a well-formed unexpired token signed with the server secret
and bound to the seeded account resolves to that account. -/
theorem get_current_user_spec_witness :
    get_current_user
        (.valid { payload := { sub := some "michael@mergington.edu",
                               exp := some 2000 },
                  key := SECRET_KEY, alg := ALGORITHM }) SeedStore 1000 =
      .ok MichaelUser :=
  (get_current_user_spec
    (.valid { payload := { sub := some "michael@mergington.edu",
                           exp := some 2000 },
              key := SECRET_KEY, alg := ALGORITHM }) SeedStore 1000).2.2.2.2.2.2
    { sub := some "michael@mergington.edu", exp := some 2000 }
    "michael@mergington.edu" MichaelUser (by rfl) (by decide) (by decide)

/-- C8 witness: running `init_db` on the already-seeded store returns it
unchanged. -/
theorem init_db_spec_witness : init_db demoHash SeedStore = SeedStore :=
  (init_db_spec demoHash SeedStore).1 (by decide)

/-- C9 witness: the successful Chess Club signup rewrites exactly the Chess
Club row of the seeded store, appending `new@x.edu`, with the users table
unchanged. -/
theorem mutation_frame_witness :
    signup_for_activity SeedStore "Chess Club" NewUser =
      .ok ("Signed up " ++ NewUser.email ++ " for " ++ "Chess Club",
        { activities := SeedStore.activities.set
            (SeedStore.activities.findIdx (fun x => x.name == "Chess Club"))
            { ChessSeed with
              participants := ChessSeed.participants ++ [NewUser.email] },
          users := SeedStore.users }) :=
  ((mutation_frame SeedStore "Chess Club" NewUser ChessSeed (by decide)).1
    (by decide) (by decide))
